import Mathlib

/-!
Verification of the forward-mode AD core of CoDiPack
(`src/include/tapes/tapeInterface.hpp`, `src/include/tapes/forwardEvaluation.hpp`,
`src/include/unaryExpression.tpp`).

The embedding instantiates the template parameter `Real` with `ℚ` (an exact,
executable model of the configurable floating-point type), represents the
mutation of a gradient accumulator passed by reference as state passing
(`Real → Real`), and represents a C++ expression object by the record of the
member functions an expression must provide (`getValue`, the one-argument
`calcGradient`, and the two-argument `calcGradient`).
-/

namespace codi

/-- The floating point type of the tape, `Real` in the C++ templates. -/
abbrev Real := ℚ

/-- `ForwardEvaluation<Real>::GradientData`, defined as `typedef Real GradientData;`
in `forwardEvaluation.hpp`: for the forward tape the gradient data is the
tangent value itself. -/
abbrev GradientData := Real

/-- `TypeTraits<Real>::PassiveReal`: the passive (non-differentiable constant)
numeric type. For a plain floating point `Real` it is `Real` itself. -/
abbrev PassiveReal := Real

/-- The capability record of an expression node (the `Expression<Real, A>`
concept): its numeric value, and its two `calcGradient` member functions with
the by-reference accumulator made explicit as state passing. -/
structure Expression where
  getValue : Real
  calcGradient1 : Real → Real
  calcGradient2 : Real → Real → Real

namespace ForwardEvaluation

/-- `ForwardEvaluation::pushJacobi(Real& lhsTangent, const Real& value, const
GradientData& curTangent)` from `forwardEvaluation.hpp`: the optimized
three-argument overload, body `lhsTangent += curTangent;`. Returns the updated
accumulator. -/
def pushJacobi3 (lhsTangent : Real) (value : Real) (curTangent : GradientData) : Real :=
  lhsTangent + curTangent

/-- `ForwardEvaluation::pushJacobi(Real& lhsTangent, const Real& jacobi, const
Real& value, const GradientData& curTangent)` from `forwardEvaluation.hpp`: the
general four-argument overload, body `lhsTangent += jacobi * curTangent;`. -/
def pushJacobi4 (lhsTangent : Real) (jacobi : Real) (value : Real) (curTangent : GradientData) : Real :=
  lhsTangent + jacobi * curTangent

/-- The general (template) overload
`ForwardEvaluation::store(Real& value, GradientData& lhsTangent, const Rhs& rhs)`
from `forwardEvaluation.hpp`, body `lhsTangent = Real(); rhs.calcGradient(lhsTangent);`.
`Real()` value-initializes to zero. The function returns the pair
(final `value`, final `lhsTangent`); note that the body never assigns `value`,
so the first component is the incoming `value` unchanged. -/
def store (value : Real) (lhsTangent : GradientData) (rhs : Expression) : Real × GradientData :=
  let lhsTangent := (0 : Real)
  let lhsTangent := rhs.calcGradient1 lhsTangent
  (value, lhsTangent)

end ForwardEvaluation

/-- The active variable `ActiveReal<Real, ForwardEvaluation<Real>>`.
Modelled from the spec: `activeReal.hpp` is not among the given sources; per the
spec an active variable owns one primal value and one gradient handle and
exposes `getValue`/`getGradient` pass-throughs (for the forward tape the
gradient handle is the tangent value itself). -/
structure ActiveReal where
  value : Real
  gradientData : GradientData

/-- The active variable's `getValue` accessor (modelled from the spec, see
`ActiveReal`). -/
def ActiveReal.getValue (x : ActiveReal) : Real :=
  x.value

/-- The active variable's `getGradient` accessor (modelled from the spec, see
`ActiveReal`): for the forward tape it reads the tangent stored in the gradient
data. -/
def ActiveReal.getGradient (x : ActiveReal) : Real :=
  x.gradientData

namespace ForwardEvaluation

/-- The copy overload `ForwardEvaluation::store(Real& value, GradientData&
lhsTangent, const ActiveReal<Real, ForwardEvaluation<Real>>& rhs)` from
`forwardEvaluation.hpp`, body `lhsTangent = rhs.getGradient(); value = rhs.getValue();`.
Returns the pair (final `value`, final `lhsTangent`). -/
def storeActive (value : Real) (lhsTangent : GradientData) (rhs : ActiveReal) : Real × GradientData :=
  let lhsTangent := rhs.getGradient
  let value := rhs.getValue
  (value, lhsTangent)

/-- The constant overload `ForwardEvaluation::store(Real& value, GradientData&
tangent, const typename TypeTraits<Real>::PassiveReal& rhs)` from
`forwardEvaluation.hpp`, body `tangent = Real(); value = rhs;`. Returns the
pair (final `value`, final `tangent`). -/
def storePassive (value : Real) (tangent : GradientData) (rhs : PassiveReal) : Real × GradientData :=
  let tangent := (0 : Real)
  let value := rhs
  (value, tangent)

end ForwardEvaluation

/-- The generated unary node `OP<Real, A>` from `unaryExpression.tpp`, as the
`Expression` record it provides. The generator parameters `PRIMAL_CALL` and
`GRADIENT_FUNC` become the arguments `primal` and `grad` (where `grad` receives
the operand's value and the precomputed result, as in the source). The
constructor precomputes `result_ = PRIMAL_CALL(a.getValue())`; the one-argument
`calcGradient` runs `a_.calcGradient(gradient, GRADIENT_FUNC(a_.getValue(), result_))`;
the two-argument one runs
`a_.calcGradient(gradient, GRADIENT_FUNC(a_.getValue(), result_) * multiplier)`;
`getValue` returns `result_`. -/
def OP (primal : Real → Real) (grad : Real → Real → Real) (a : Expression) : Expression :=
  let result := primal a.getValue
  { getValue := result
    calcGradient1 := fun gradient => a.calcGradient2 gradient (grad a.getValue result)
    calcGradient2 := fun gradient multiplier =>
      a.calcGradient2 gradient (grad a.getValue result * multiplier) }

/-- The generated unary node of `unaryExpression.tpp` with its two member
fields kept explicit, to state memoization: `a_` is the captured operand and
`result_` the precomputed primal result. -/
structure OPNode where
  a_ : Expression
  result_ : Real

/-- The constructor `OP(const Expression<Real, A>& a)` from
`unaryExpression.tpp`: captures the operand and eagerly evaluates
`result_(PRIMAL_CALL(a.getValue()))`. -/
def OPNode.ofExpr (primal : Real → Real) (a : Expression) : OPNode :=
  { a_ := a, result_ := primal a.getValue }

/-- `OP::getValue` from `unaryExpression.tpp`: returns the memoized `result_`. -/
def OPNode.getValue (n : OPNode) : Real :=
  n.result_

/-- The two-argument `OP::calcGradient` from `unaryExpression.tpp`, written as
a const member: it returns the updated accumulator together with the node,
which it cannot modify. -/
def OPNode.calcGradient2 (grad : Real → Real → Real) (n : OPNode) (gradient multiplier : Real) :
    Real × OPNode :=
  (n.a_.calcGradient2 gradient (grad n.a_.getValue n.result_ * multiplier), n)

/-- The leaf view of an active variable as an `Expression`.
Modelled from the spec: `activeReal.hpp` is not among the given sources; per
the spec, at the leaves the gradient contribution is accumulated via the tape's
Jacobian-push operation, so the leaf's one-argument `calcGradient` routes into
the three-argument (Jacobian 1) `pushJacobi` and its two-argument `calcGradient`
routes into the four-argument `pushJacobi` of `ForwardEvaluation`. -/
def ActiveReal.toExpr (x : ActiveReal) : Expression :=
  { getValue := x.value
    calcGradient1 := fun gradient =>
      ForwardEvaluation.pushJacobi3 gradient x.value x.gradientData
    calcGradient2 := fun gradient multiplier =>
      ForwardEvaluation.pushJacobi4 gradient multiplier x.value x.gradientData }

/-- The binary addition node.
Modelled from the spec: the binary generator (`binaryExpression.tpp`) is not
among the given sources; per the spec it is the same generator pattern at arity
two, and for addition each operand's local Jacobian is exactly 1, so each
operand is visited once with the multiplier passed through unchanged (the
optimized path on the one-argument overload). -/
def addExpr (a b : Expression) : Expression :=
  { getValue := a.getValue + b.getValue
    calcGradient1 := fun gradient => b.calcGradient1 (a.calcGradient1 gradient)
    calcGradient2 := fun gradient multiplier =>
      b.calcGradient2 (a.calcGradient2 gradient multiplier) multiplier }

/-- Expression trees built from active-variable leaves and generated unary
nodes: the compile-time compositions the generator supports. -/
inductive Expr where
  | leaf (value : Real) (tangent : Real)
  | unary (primal : Real → Real) (grad : Real → Real → Real) (a : Expr)

/-- The `Expression` record a tree denotes: leaves are active variables, inner
nodes are generated `OP` nodes. -/
def Expr.toExpression : Expr → Expression
  | .leaf v t => ActiveReal.toExpr ⟨v, t⟩
  | .unary p g a => OP p g a.toExpression

/-- The primal value of a tree. -/
def Expr.val : Expr → Real
  | .leaf v _ => v
  | .unary p _ a => p a.val

/-- The total (seeded) derivative of a tree: each leaf contributes its seeded
tangent, each unary node multiplies by its local derivative evaluated at the
operand's value and the node's own result. -/
def Expr.deriv : Expr → Real
  | .leaf _ t => t
  | .unary p g a => g a.val (p a.val) * a.deriv

/-- A concrete operand expression used to instantiate theorems about the
generated node: value 2, tangent 3, with the two `calcGradient` overloads
consistent with each other. -/
def sampleOperand : Expression :=
  { getValue := 2
    calcGradient1 := fun gradient => gradient + 3
    calcGradient2 := fun gradient multiplier => gradient + multiplier * 3 }

theorem getValue_toExpression (e : Expr) : e.toExpression.getValue = e.val := by
  induction e with
  | leaf v t => rfl
  | unary p g a ih => simp [Expr.toExpression, Expr.val, OP, ih]

theorem calcGradient2_toExpression (e : Expr) (acc m : Real) :
    e.toExpression.calcGradient2 acc m = acc + m * e.deriv := by
  induction e generalizing acc m with
  | leaf v t =>
      simp [Expr.toExpression, ActiveReal.toExpr, ForwardEvaluation.pushJacobi4, Expr.deriv]
  | unary p g a ih =>
      simp [Expr.toExpression, Expr.deriv, OP, ih, getValue_toExpression]
      ring

theorem calcGradient1_toExpression (e : Expr) (acc : Real) :
    e.toExpression.calcGradient1 acc = acc + e.deriv := by
  cases e with
  | leaf v t =>
      simp [Expr.toExpression, ActiveReal.toExpr, ForwardEvaluation.pushJacobi3, Expr.deriv]
  | unary p g a =>
      simp [Expr.toExpression, Expr.deriv, OP, calcGradient2_toExpression, getValue_toExpression]

/-- Claim C1: for a composed unary chain h = f(g(x)) of two generated nodes
over an active leaf x routed through `ForwardEvaluation::pushJacobi`,
propagating the derivative adds exactly f'(g(x)) * g'(x) times the seeded
tangent of x to the accumulator; and each generated node's two-argument
`calcGradient` passes the product of its local derivative and the incoming
multiplier down to its operand. -/
theorem chain_rule_unary_composition
    (f g : Real → Real) (fgrad ggrad : Real → Real → Real) (v t acc : Real) :
    ((Expr.unary f fgrad (Expr.unary g ggrad (Expr.leaf v t))).toExpression.calcGradient1 acc
      = acc + fgrad (g v) (f (g v)) * ggrad v (g v) * t) ∧
    (∀ (a : Expression) (m : Real),
      (OP f fgrad a).calcGradient2 acc m
        = a.calcGradient2 acc (fgrad a.getValue (f a.getValue) * m)) := by
  constructor
  · rw [calcGradient1_toExpression]
    simp [Expr.deriv, Expr.val]
    ring
  · intro a m
    rfl

/-- Claim C2 (refuted; code bug): at a right-hand side whose primal value is 5
and with the value slot initially 0, the general `store` overload returns
value 0, not `rhs.getValue() = 5`: its body never assigns the `value` output
parameter, contradicting the parameter's `[out]` documentation and the doc
comment saying the primal equation is evaluated. -/
theorem store_general_leaves_value_unchanged :
    (ForwardEvaluation.store 0 0 (Expr.leaf 5 1).toExpression).fst = 0 ∧
    (Expr.leaf 5 1).toExpression.getValue = 5 :=
  ⟨rfl, rfl⟩

/-- Claim C3: the general `store` overload first resets the lhs tangent to zero
and then accumulates the total derivative of the right-hand side into it, so
the final lhs tangent equals the total derivative of the rhs, independently of
the tangent's prior content. -/
theorem store_general_tangent_is_total_derivative (rhs : Expr) (value lhsTangent : Real) :
    (ForwardEvaluation.store value lhsTangent rhs.toExpression).snd = rhs.deriv := by
  simp [ForwardEvaluation.store, calcGradient1_toExpression]

/-- Claim C4: both `pushJacobi` overloads accumulate strictly by addition: the
three-argument overload yields a + t, the four-argument overload yields
a + j * t; consequently for y = x + x (the same active leaf used twice) the
stored derivative is the sum of the two occurrences' contributions, t + t. -/
theorem pushJacobi_accumulates_by_addition (a t j value v0 t0 : Real) :
    ForwardEvaluation.pushJacobi3 a value t = a + t ∧
    ForwardEvaluation.pushJacobi4 a j value t = a + j * t ∧
    (ForwardEvaluation.store v0 t0
        (addExpr (ActiveReal.toExpr ⟨value, t⟩) (ActiveReal.toExpr ⟨value, t⟩))).snd
      = t + t := by
  refine ⟨rfl, rfl, ?_⟩
  simp [ForwardEvaluation.store, addExpr, ActiveReal.toExpr, ForwardEvaluation.pushJacobi3]

/-- Claim C5: when the right-hand side of `store` is an active variable, the
overload copies the source's derivative into the lhs tangent and the source's
primal value into the lhs value exactly, with no propagation. -/
theorem store_active_copies_value_and_gradient (value lhsTangent : Real) (rhs : ActiveReal) :
    ForwardEvaluation.storeActive value lhsTangent rhs = (rhs.getValue, rhs.getGradient) :=
  rfl

/-- Claim C6: for every passive constant c, the constant overload of `store`
sets the lhs tangent to exactly zero and the lhs value to c, regardless of c
and of the tangent's previous content. -/
theorem store_passive_sets_zero_tangent (value tangent : Real) (c : PassiveReal) :
    ForwardEvaluation.storePassive value tangent c = (c, 0) :=
  rfl

/-- Claim C7: a generated unary node evaluates its primal function eagerly in
its constructor and memoizes the result: `getValue` returns exactly the primal
applied to the operand's construction-time value, and `calcGradient` returns
the node unchanged, so any number of later queries sees the same value. -/
theorem unary_node_memoizes_primal (primal : Real → Real) (grad : Real → Real → Real)
    (a : Expression) (acc m : Real) :
    (OPNode.ofExpr primal a).getValue = primal a.getValue ∧
    ((OPNode.ofExpr primal a).calcGradient2 grad acc m).snd = OPNode.ofExpr primal a :=
  ⟨rfl, rfl⟩

/-- Claim C8: the optimized three-argument `pushJacobi` has exactly the effect
of the general four-argument overload at jacobi 1: both leave the accumulator
equal to a plus the tangent held in the gradient data. -/
theorem pushJacobi3_is_pushJacobi4_at_one (a value : Real) (g : GradientData) :
    ForwardEvaluation.pushJacobi3 a value g = ForwardEvaluation.pushJacobi4 a 1 value g ∧
    ForwardEvaluation.pushJacobi3 a value g = a + g := by
  constructor
  · simp [ForwardEvaluation.pushJacobi3, ForwardEvaluation.pushJacobi4]
  · rfl

/-- Claim C9: over every expression tree of generated unary nodes and active
leaves, propagation is additive in the accumulator and linear in the incoming
multiplier: the two-argument `calcGradient` from accumulator a with multiplier
m yields a + m * D and the one-argument one yields a + D, where D is the
tree's total derivative; the prior accumulator content is only added to, never
overwritten or read into the derivative. -/
theorem calcGradient_additive_linear (e : Expr) (acc m : Real) :
    e.toExpression.calcGradient2 acc m = acc + m * e.deriv ∧
    e.toExpression.calcGradient1 acc = acc + e.deriv :=
  ⟨calcGradient2_toExpression e acc m, calcGradient1_toExpression e acc⟩

/-- Claim C10: for a generated unary node whose operand's one-argument
`calcGradient` agrees with its two-argument `calcGradient` at multiplier 1, the
node's one-argument `calcGradient` has exactly the effect of its two-argument
one called with multiplier 1, since multiplying the local derivative by 1 is
the identity. -/
theorem calcGradient1_is_calcGradient2_at_one (primal : Real → Real)
    (grad : Real → Real → Real) (a : Expression)
    (h : ∀ g : Real, a.calcGradient1 g = a.calcGradient2 g 1) (g : Real) :
    (OP primal grad a).calcGradient1 g = (OP primal grad a).calcGradient2 g 1 := by
  simp [OP]

/-- Witness for claim C10 at a concrete generated node over `sampleOperand`. -/
theorem calcGradient1_is_calcGradient2_at_one_witness :
    (OP (fun x => x * x) (fun x r => x + r) sampleOperand).calcGradient1 5
      = (OP (fun x => x * x) (fun x r => x + r) sampleOperand).calcGradient2 5 1 :=
  calcGradient1_is_calcGradient2_at_one (fun x => x * x) (fun x r => x + r)
    sampleOperand (fun g => by simp [sampleOperand]) 5

end codi
